import Mathlib

/-!
Shallow embedding of `src/gradio/components/color_picker.py` (the
`gr.ColorPicker` component) and proofs of the specified properties of its
value pipeline, event surface and construction interface.

Python methods either return a value or raise an exception, so the two
pipeline methods and the constructor are embedded with an `Except` result
type whose error side stands for a raised exception; a branch of the
source that returns normally is embedded as `Except.ok`.
-/

/-- Symbolic event kinds. Modelled from the spec: the host framework's
event namespace (`gradio.events.Events`, not among the provided sources)
declares the interaction kinds widgets can emit; this file references
`change`, `input`, `submit`, `focus` and `blur` (source line 25), and the
framework declares further kinds for other widget variants (spec section
4.3 requires every kind declared by this widget to be one of the five), so
a few representative extra kinds are included to keep that containment
meaningful. -/
inductive EventKind where
  | change
  | input
  | submit
  | focus
  | blur
  | click
  | clear
  | select
  | upload
  | play
  | stop
deriving DecidableEq, Repr

/-- Python built-in `str` applied to a value that is already a `str`:
returns the very same string and cannot raise. Both pipeline methods of
the source call it on their (string-typed) argument. -/
def pyStr (s : String) : String := s

/-- The `value` constructor option of the source (line 29):
`str | Callable | None`. A user-supplied zero-argument computation is an
opaque callable; only its identity matters to the construction interface,
so it is embedded as a reference. -/
inductive ValueArg where
  | absent
  | literal (s : String)
  | callable (fnRef : Nat)
deriving DecidableEq, Repr

/-- The `every` constructor option of the source (line 33):
`Timer | float | None` with `none` embedded at the use site as
`Option EveryArg`. A `Timer` is an opaque reference into the host's timer
registry; a numeric interval is kept abstract as a natural count of
milliseconds (its exact float value plays no role in any claim). -/
inductive EveryArg where
  | timer (id : Nat)
  | interval (millis : Nat)
deriving DecidableEq, Repr

/-- Configuration error surfaced at construction time (spec section 7).
The source of `ColorPicker.__init__` contains no raise path, so no code in
this file ever produces a value of this type; it exists so that the
constructor's embedding can state which side it returns on. -/
inductive ConfigError where
  | configError (msg : String)
deriving DecidableEq, Repr

/-- A constructed `ColorPicker` widget instance: the configuration that
`ColorPicker.__init__` (source lines 27-83) forwards, option for option,
to the base `Component` constructor, which records it on the instance.
Components referenced by `inputs` and string-valued `key`s are kept
opaque. -/
structure ColorPicker where
  value : ValueArg
  label : Option String
  info : Option String
  every : Option EveryArg
  inputs : Option (List Nat)
  show_label : Option Bool
  container : Bool
  scale : Option Int
  min_width : Nat
  interactive : Option Bool
  visible : Bool
  elem_id : Option String
  elem_classes : Option (List String)
  render : Bool
  key : Option String
  preserved_by_key : Option (List String)
deriving DecidableEq, Repr

/-- Embeds `ColorPicker.__init__` (source lines 27-83). Its body is a
single unconditional call forwarding every option to the base constructor;
it contains no validation and no raise path. Per the parameter
documentation in the source itself (lines 52-53), `every` and `inputs` are
used only "if `value` is a function (has no effect otherwise)", so with a
literal or absent `value` they are recorded and ignored rather than
rejected. The `Except` result records that a Python constructor either
returns the instance or raises. -/
def ColorPicker.init (value : ValueArg) (label : Option String) (info : Option String)
    (every : Option EveryArg) (inputs : Option (List Nat)) (show_label : Option Bool)
    (container : Bool) (scale : Option Int) (min_width : Nat) (interactive : Option Bool)
    (visible : Bool) (elem_id : Option String) (elem_classes : Option (List String))
    (render : Bool) (key : Option String) (preserved_by_key : Option (List String)) :
    Except ConfigError ColorPicker :=
  Except.ok
    { value := value
      label := label
      info := info
      every := every
      inputs := inputs
      show_label := show_label
      container := container
      scale := scale
      min_width := min_width
      interactive := interactive
      visible := visible
      elem_id := elem_id
      elem_classes := elem_classes
      render := render
      key := key
      preserved_by_key := preserved_by_key }

/-- The class attribute `ColorPicker.EVENTS` (source line 25): the fixed
list of event kinds this widget variant declares. -/
def ColorPicker.EVENTS : List EventKind :=
  [EventKind.change, EventKind.input, EventKind.submit, EventKind.focus, EventKind.blur]

/-- Embeds `ColorPicker.example_payload` (source lines 85-86). -/
def ColorPicker.example_payload (_self : ColorPicker) : String := "#000000"

/-- Embeds `ColorPicker.example_value` (source lines 88-89). -/
def ColorPicker.example_value (_self : ColorPicker) : String := "#000000"

/-- Embeds `ColorPicker.api_info` (source lines 91-92): the returned dict
literal is embedded as its association list of key/value pairs. -/
def ColorPicker.api_info (_self : ColorPicker) : List (String × String) :=
  [(("type"), ("string"))]

/-- Embeds `ColorPicker.preprocess` (source lines 94-104): absent payload
is returned as absent, otherwise the payload is passed through the
built-in `str` coercion; both branches return normally. -/
def ColorPicker.preprocess (_self : ColorPicker) (payload : Option String) :
    Except String (Option String) :=
  match payload with
  | none => Except.ok none
  | some s => Except.ok (some (pyStr s))

/-- Embeds `ColorPicker.postprocess` (source lines 106-116): absent value
is returned as absent, otherwise the value is passed through the built-in
`str` coercion; both branches return normally. -/
def ColorPicker.postprocess (_self : ColorPicker) (value : Option String) :
    Except String (Option String) :=
  match value with
  | none => Except.ok none
  | some s => Except.ok (some (pyStr s))

/-- C1, counterexample to the claim as stated: constructing a
`ColorPicker` with a non-absent `inputs` option and a literal default
value returns the constructed instance normally; no configuration error is
raised at construction time. -/
theorem C1_counterexample :
    ColorPicker.init (ValueArg.literal ("#ff0000")) none none none (some [0]) none true none
      160 none true none none true none (some [("value")]) =
    Except.ok
      { value := ValueArg.literal ("#ff0000")
        label := none
        info := none
        every := none
        inputs := some [0]
        show_label := none
        container := true
        scale := none
        min_width := 160
        interactive := none
        visible := true
        elem_id := none
        elem_classes := none
        render := true
        key := none
        preserved_by_key := some [("value")] } := rfl

/-- C1, amended: constructing a `ColorPicker` with a declared upstream
dependency set (the `inputs` option non-absent) but a literal
(non-computation) default value succeeds without raising; the dependency
set is recorded but silently ignored (the source documents `inputs` as
having no effect unless the default is a computation), and the literal
default is kept as the value. -/
theorem C1_amended (s : String) (deps : List Nat) (label info : Option String)
    (every : Option EveryArg) (show_label : Option Bool) (container : Bool)
    (scale : Option Int) (min_width : Nat) (interactive : Option Bool) (visible : Bool)
    (elem_id : Option String) (elem_classes : Option (List String)) (render : Bool)
    (key : Option String) (preserved_by_key : Option (List String)) :
    ∃ cp : ColorPicker,
      ColorPicker.init (ValueArg.literal s) label info every (some deps) show_label container
          scale min_width interactive visible elem_id elem_classes render key preserved_by_key
        = Except.ok cp ∧
      cp.value = ValueArg.literal s ∧ cp.inputs = some deps :=
  ⟨_, rfl, rfl, rfl⟩

/-- C2: on any payload or value that is already a string, both
`preprocess` and `postprocess` return that very string unchanged (and
return normally): both behave as the identity on canonical strings. -/
theorem C2_identity_on_strings (cp : ColorPicker) (s : String) :
    cp.preprocess (some s) = Except.ok (some s) ∧
    cp.postprocess (some s) = Except.ok (some s) :=
  ⟨rfl, rfl⟩

/-- C3: the absent value (`None`) is preserved by both pipeline
operations: `preprocess none` returns absent and `postprocess none`
returns absent. -/
theorem C3_absent_preserved (cp : ColorPicker) :
    cp.preprocess none = Except.ok none ∧ cp.postprocess none = Except.ok none :=
  ⟨rfl, rfl⟩

/-- C4: both pipeline operations are idempotent over their declared
domain: feeding the (normally returned) result of `preprocess` back into
`preprocess` changes nothing, and likewise for `postprocess`. -/
theorem C4_idempotent (cp : ColorPicker) (x : Option String) :
    (cp.preprocess x).bind cp.preprocess = cp.preprocess x ∧
    (cp.postprocess x).bind cp.postprocess = cp.postprocess x := by
  cases x <;> exact ⟨rfl, rfl⟩

/-- C5: both pipeline operations are total over their declared domain: for
every input that is a string or absent, each returns normally (with a
string-or-absent result) and never raises. -/
theorem C5_total (cp : ColorPicker) (x : Option String) :
    (∃ y : Option String, cp.preprocess x = Except.ok y) ∧
    (∃ z : Option String, cp.postprocess x = Except.ok z) := by
  cases x <;> exact ⟨⟨_, rfl⟩, ⟨_, rfl⟩⟩

/-- C6: the declared event kind set of the widget is exactly
{change, input, submit, focus, blur}: every declared kind is one of these
five, each of the five is declared, and no kind is declared twice. -/
theorem C6_event_surface :
    (∀ e ∈ ColorPicker.EVENTS,
      e = EventKind.change ∨ e = EventKind.input ∨ e = EventKind.submit ∨
      e = EventKind.focus ∨ e = EventKind.blur) ∧
    (EventKind.change ∈ ColorPicker.EVENTS ∧ EventKind.input ∈ ColorPicker.EVENTS ∧
      EventKind.submit ∈ ColorPicker.EVENTS ∧ EventKind.focus ∈ ColorPicker.EVENTS ∧
      EventKind.blur ∈ ColorPicker.EVENTS) ∧
    ColorPicker.EVENTS.Nodup := by
  decide

/-- C7: `example_payload` and `example_value` both return exactly the
string "#000000", and each is a fixed point of its pipeline operation. -/
theorem C7_examples (cp : ColorPicker) :
    cp.example_payload = ("#000000") ∧ cp.example_value = ("#000000") ∧
    cp.preprocess (some cp.example_payload) = Except.ok (some cp.example_payload) ∧
    cp.postprocess (some cp.example_value) = Except.ok (some cp.example_value) :=
  ⟨rfl, rfl, rfl, rfl⟩

/-- C8: `api_info` returns exactly the one-entry schema descriptor
mapping "type" to "string", with no other keys, for every instance
regardless of its construction options. -/
theorem C8_api_info (cp : ColorPicker) :
    cp.api_info = [(("type"), ("string"))] :=
  rfl

/-- C9: the inbound and outbound pipeline operations are extensionally
equal: on every string-or-absent input they return the same result. -/
theorem C9_pre_eq_post (cp : ColorPicker) (x : Option String) :
    cp.preprocess x = cp.postprocess x := by
  cases x <;> rfl

/-- C10: the pipeline operations do not depend on widget configuration or
state: any two instances, however constructed, agree on every input, for
`preprocess` and for `postprocess` alike. -/
theorem C10_config_independent (cp1 cp2 : ColorPicker) (x : Option String) :
    cp1.preprocess x = cp2.preprocess x ∧ cp1.postprocess x = cp2.postprocess x := by
  cases x <;> exact ⟨rfl, rfl⟩
